import Mathlib

/-!
Verification of the context-scoped resource registry implemented in
src/mdb_singleton/singleton.py (classes MongoDBConnection, MongoDBSingleton,
MongoDBSingletonAsync).

The Python code is shallowly embedded as follows.

A pymongo/motor client handle is modelled as an opaque value carrying one
observable: whether its underlying close() call raises.  The environment and
the driver constructor are folded into an OpenResult parameter that says
whether the statement `client_class(MONGO_URI)` returns a client or raises a
given exception class.

Python object attributes that may be unset are modelled with Option: a
MongoDBConnection on which `_initialize_connection` caught an exception never
had `self.client` assigned, which we model as `client = none`; evaluating
`self.client` on such an object raises AttributeError.

The class attribute `MongoDBSingleton._instances` (a dict keyed by the
stringified context id) is modelled as an association list with Python dict
semantics: `insertAL` replaces in place or appends, `eraseAL` removes the
entry (`dict.pop`), `lookupAL` is indexing / the `in` test.  `RegState` also
carries a counter `nextId` supplying fresh object identities, so that "the
same instance" is expressible.  Observable side effects of teardown (calls of
the underlying client close, removals from the dict) are recorded as an event
trace.  Exceptions escaping a method are an `Except` error or an
`Option PyErr` component of the result.
-/

namespace MdbSingleton

/-- An external client handle as returned by MongoClient / AsyncIOMotorClient.
The only behaviour the registry observes is whether its close() raises. -/
structure Client where
  closeRaises : Bool
deriving DecidableEq, Repr

/-- The `type` attribute set by the two `__new__` methods: "thread" for
MongoDBSingleton, "task" for MongoDBSingletonAsync. -/
inductive Mode
  | thread
  | task
deriving DecidableEq, Repr

/-- A MongoDBConnection object: attributes `key`, `type` (here `mode`), and
`client`, which is `none` while the attribute has never been assigned.
`connId` models Python object identity, so distinct constructions are
distinguishable. -/
structure Conn where
  key : String
  mode : Mode
  client : Option Client
  connId : Nat
deriving DecidableEq, Repr

/-- The pymongo exception classes named by `_initialize_connection`, plus the
relevant superclass structure: ServerSelectionTimeoutError is a subclass of
AutoReconnect which is a subclass of ConnectionFailure; InvalidURI is a
subclass of ConfigurationError.  `otherException` stands for any exception
outside both hierarchies. -/
inductive ExcClass
  | serverSelectionTimeoutError
  | autoReconnect
  | connectionFailure
  | invalidURI
  | configurationError
  | otherException
deriving DecidableEq, Repr

/-- `isSubclass e h` holds when an exception of class `e` is caught by an
except clause naming class `h` (pymongo 4.x hierarchy). -/
def isSubclass : ExcClass → ExcClass → Bool
  | .serverSelectionTimeoutError, .serverSelectionTimeoutError => true
  | .serverSelectionTimeoutError, .autoReconnect => true
  | .serverSelectionTimeoutError, .connectionFailure => true
  | .autoReconnect, .autoReconnect => true
  | .autoReconnect, .connectionFailure => true
  | .connectionFailure, .connectionFailure => true
  | .invalidURI, .invalidURI => true
  | .invalidURI, .configurationError => true
  | .configurationError, .configurationError => true
  | .otherException, .otherException => true
  | _, _ => false

/-- The four error kinds logged by the four except clauses of
`_initialize_connection`, in source order. -/
inductive ErrKind
  | timeout
  | connFailure
  | invalidURIError
  | configError
deriving DecidableEq, Repr

/-- The except-clause chain of `_initialize_connection`: the first clause
whose named class the raised class is a (non-strict) subclass of handles the
exception; `none` means the exception is uncaught and propagates. -/
def matchingHandler (e : ExcClass) : Option ErrKind :=
  if isSubclass e .serverSelectionTimeoutError then some .timeout
  else if isSubclass e .connectionFailure then some .connFailure
  else if isSubclass e .invalidURI then some .invalidURIError
  else if isSubclass e .configurationError then some .configError
  else none

/-- Outcome of evaluating `client_class(MONGO_URI)`: either a client handle
is returned, or an exception of the given class is raised. -/
inductive OpenResult
  | success (cl : Client)
  | raises (e : ExcClass)
deriving DecidableEq, Repr

/-- `MongoDBConnection._initialize_connection` (singleton.py lines 22-49):
on success assigns `self.client`; on a raised exception runs the matching
except clause, which only logs (returned as the `Option ErrKind`), leaving
`self.client` unassigned; an exception matching no clause propagates. -/
def init_connection (c : Conn) (res : OpenResult) : Except ExcClass (Conn × Option ErrKind) :=
  match res with
  | .success cl => .ok ({ c with client := some cl }, none)
  | .raises e =>
    match matchingHandler e with
    | some k => .ok (c, some k)
    | none => .error e

/-- Observable teardown events: a call of the underlying client close()
(for the entry with the given key), and removal of a key from `_instances`. -/
inductive Ev
  | closeCalled (key : String)
  | removed (key : String)
deriving DecidableEq, Repr

/-- Python exceptions arising in teardown: AttributeError from evaluating the
never-assigned `self.client`, an error raised by the underlying close(), and
KeyError from indexing a dict at a missing key. -/
inductive PyErr
  | attributeError
  | closeError
  | keyError
deriving DecidableEq, Repr

/-- `MongoDBConnection.close_connection` (lines 51-59): evaluates
`if self.client:` — AttributeError when the attribute was never assigned —
then calls `self.client.close()` (whose own failure propagates) and logs.
Returns the object state after the call (no attribute is ever reassigned),
the emitted events, and the escaping exception if any. -/
def close_connection (c : Conn) : Conn × List Ev × Option PyErr :=
  match c.client with
  | none => (c, [], some .attributeError)
  | some cl =>
    if cl.closeRaises then (c, [.closeCalled c.key], some .closeError)
    else (c, [.closeCalled c.key], none)

/-- Dict lookup on `_instances`: both the `key in cls._instances` test and
`cls._instances[key]`. -/
def lookupAL (k : String) : List (String × Conn) → Option Conn
  | [] => none
  | (k1, c) :: rest => if k1 = k then some c else lookupAL k rest

/-- Dict assignment `cls._instances[key] = value`: replaces in place if the
key is present, otherwise appends (Python dicts preserve insertion order). -/
def insertAL (k : String) (c : Conn) : List (String × Conn) → List (String × Conn)
  | [] => [(k, c)]
  | (k1, c1) :: rest => if k1 = k then (k, c) :: rest else (k1, c1) :: insertAL k c rest

/-- Dict removal `cls._instances.pop(key)`. -/
def eraseAL (k : String) : List (String × Conn) → List (String × Conn)
  | [] => []
  | (k1, c1) :: rest => if k1 = k then rest else (k1, c1) :: eraseAL k rest

/-- The shared class-level state of MongoDBSingleton: the `_instances` dict
plus a supply of fresh object identities. -/
structure RegState where
  entries : List (String × Conn)
  nextId : Nat
deriving DecidableEq, Repr

/-- Result of a completed `__new__` call: the returned connection object, the
updated registry state, the error kind logged by a handled open failure, and
whether a new object was constructed (false on the cache-hit path). -/
structure AcqOut where
  conn : Conn
  st : RegState
  logged : Option ErrKind
  constructedNew : Bool
deriving DecidableEq, Repr

/-- The body of the `with cls._lock:` block in `__new__` (lines 78-84 and
124-130): unconditionally constructs a fresh object, stores it under `key`,
sets its `key` and `type` attributes, then runs `_initialize_connection`,
whose success mutates the stored object in place.  Note that there is no
re-check of `key not in cls._instances` inside the lock. -/
def lockedBody (mode : Mode) (key : String) (res : OpenResult) (s : RegState) :
    Except ExcClass AcqOut :=
  let c0 : Conn := { key := key, mode := mode, client := none, connId := s.nextId }
  let entries1 := insertAL key c0 s.entries
  match init_connection c0 res with
  | .ok (c1, logged) =>
    .ok { conn := c1
          st := { entries := insertAL key c1 entries1, nextId := s.nextId + 1 }
          logged := logged
          constructedNew := true }
  | .error e => .error e

/-- `__new__` (lines 71-86 / 117-132): if the key is present, return the
stored object unchanged; otherwise run the locked creation body.  `key` is
the stringified id of the current thread (or task) and `mode` the `type`
tag the variant assigns. -/
def new (mode : Mode) (key : String) (res : OpenResult) (s : RegState) :
    Except ExcClass AcqOut :=
  match lookupAL key s.entries with
  | some c => .ok { conn := c, st := s, logged := none, constructedNew := false }
  | none => lockedBody mode key res s

/-- `MongoDBSingleton.__new__`: thread mode, key from the current thread. -/
def MongoDBSingleton.new (key : String) (res : OpenResult) (s : RegState) :
    Except ExcClass AcqOut :=
  MdbSingleton.new .thread key res s

/-- `MongoDBSingletonAsync.__new__`: task mode, key from the current task.
The subclass never rebinds `_instances` or `_lock`, so it operates on the
very same registry state as the thread variant. -/
def MongoDBSingletonAsync.new (key : String) (res : OpenResult) (s : RegState) :
    Except ExcClass AcqOut :=
  MdbSingleton.new .task key res s

/-- `MongoDBSingleton.close` (lines 100-108): if the key is in the snapshot
of the dict keys, first call `close_connection()` on the stored object —
an exception here propagates and the entry is NOT removed — and only then
`pop` the key. -/
def close (key : String) (s : RegState) : RegState × List Ev × Option PyErr :=
  match lookupAL key s.entries with
  | none => (s, [], none)
  | some c =>
    let r := close_connection c
    let s1 : RegState := { entries := insertAL key r.1 s.entries, nextId := s.nextId }
    match r.2.2 with
    | some e => (s1, r.2.1, some e)
    | none =>
      ({ entries := eraseAL key s1.entries, nextId := s1.nextId },
       r.2.1 ++ [.removed key], none)

/-- The loop of `close_all_connections` over the snapshot of keys: for each
key, index the dict (KeyError would propagate), call `close_connection` —
an exception aborts the remaining sweep with the entry still present — then
`pop` the key. -/
def closeAllGo : List String → RegState → RegState × List Ev × Option PyErr
  | [], s => (s, [], none)
  | k :: ks, s =>
    match lookupAL k s.entries with
    | none => (s, [], some .keyError)
    | some c =>
      let r := close_connection c
      let s1 : RegState := { entries := insertAL k r.1 s.entries, nextId := s.nextId }
      match r.2.2 with
      | some e => (s1, r.2.1, some e)
      | none =>
        let s2 : RegState := { entries := eraseAL k s1.entries, nextId := s1.nextId }
        let rest := closeAllGo ks s2
        (rest.1, r.2.1 ++ [.removed k] ++ rest.2.1, rest.2.2)

/-- `MongoDBSingleton.close_all_connections` (lines 88-97): snapshot
`list(cls._instances.keys())`, then close and pop each. -/
def close_all_connections (s : RegState) : RegState × List Ev × Option PyErr :=
  closeAllGo (s.entries.map Prod.fst) s

/-- `MongoDBSingletonAsync.close_all_connections` is the inherited
classmethod: attribute lookup resolves `cls._instances` to the single dict
defined on MongoDBSingleton, so it sweeps the shared state. -/
def MongoDBSingletonAsync.close_all_connections (s : RegState) :
    RegState × List Ev × Option PyErr :=
  MdbSingleton.close_all_connections s

/-- Iterated `__new__` calls from one context (one key), threading the
registry state; each call is given its own would-be open outcome. -/
def newSeq (mode : Mode) (key : String) :
    List OpenResult → RegState → Except ExcClass (List Conn × RegState)
  | [], s => .ok ([], s)
  | r :: rs, s =>
    match new mode key r s with
    | .error e => .error e
    | .ok out =>
      match newSeq mode key rs out.st with
      | .error e => .error e
      | .ok (cs, s1) => .ok (out.conn :: cs, s1)

/-- A stored connection whose teardown cannot fail: `client` assigned and the
underlying close() does not raise. -/
def goodClient (c : Conn) : Bool :=
  match c.client with
  | some cl => !cl.closeRaises
  | none => false

/-- Every entry of the dict has its `client` attribute assigned. -/
def allClientsB (l : List (String × Conn)) : Bool :=
  l.all fun p => p.2.client.isSome

/-- In an event trace, does the removal of `k` occur strictly before the
close call for `k`?  Scans for the first of the two events. -/
def removedBeforeClose (k : String) : List Ev → Bool
  | [] => false
  | .removed k1 :: rest => if k1 = k then true else removedBeforeClose k rest
  | .closeCalled k1 :: rest => if k1 = k then false else removedBeforeClose k rest

/-- The event trace of a fully successful sweep over the given entries: the
close call is logged under the object attribute `key`, the removal under the
dict key. -/
def sweepTrace : List (String × Conn) → List Ev
  | [] => []
  | (k, c) :: rest => Ev.closeCalled c.key :: Ev.removed k :: sweepTrace rest

/-- The keys whose underlying client close() was called, in trace order,
with multiplicity. -/
def closeCalledKeys : List Ev → List String
  | [] => []
  | .closeCalled k :: rest => k :: closeCalledKeys rest
  | .removed _ :: rest => closeCalledKeys rest

/-! ### Helper lemmas about the embedded operations -/

/-- `close_connection` never reassigns any attribute of the object. -/
theorem close_connection_fst (c : Conn) : (close_connection c).1 = c := by
  rcases hcl : c.client with _ | cl
  · simp [close_connection, hcl]
  · by_cases hb : cl.closeRaises <;> simp [close_connection, hcl, hb]

/-- Looking up a key right after storing under it yields the stored value. -/
theorem lookupAL_insertAL_self (k : String) (c : Conn) :
    ∀ l, lookupAL k (insertAL k c l) = some c := by
  intro l
  induction l with
  | nil => simp [insertAL, lookupAL]
  | cons p rest ih =>
    obtain ⟨k1, c1⟩ := p
    by_cases h : k1 = k
    · simp [insertAL, h, lookupAL]
    · simp [insertAL, h, lookupAL, ih]

/-- Storing twice under the same key keeps only the second value. -/
theorem insertAL_insertAL (k : String) (a b : Conn) :
    ∀ l, insertAL k b (insertAL k a l) = insertAL k b l := by
  intro l
  induction l with
  | nil => simp [insertAL]
  | cons p rest ih =>
    obtain ⟨k1, c1⟩ := p
    by_cases h : k1 = k
    · simp [insertAL, h]
    · simp [insertAL, h, ih]

/-- Storing back the value already held under a key is a no-op. -/
theorem insertAL_lookup_self (k : String) (c : Conn) :
    ∀ l, lookupAL k l = some c → insertAL k c l = l := by
  intro l
  induction l with
  | nil => intro h; simp [lookupAL] at h
  | cons p rest ih =>
    obtain ⟨k1, c1⟩ := p
    intro h
    by_cases hk : k1 = k
    · simp [lookupAL, hk] at h
      simp [insertAL, hk, h]
    · simp [lookupAL, hk] at h
      simp [insertAL, hk, ih h]

/-- A successful lookup is a membership witness. -/
theorem lookupAL_mem (k : String) (c : Conn) :
    ∀ l, lookupAL k l = some c → (k, c) ∈ l := by
  intro l
  induction l with
  | nil => intro h; simp [lookupAL] at h
  | cons p rest ih =>
    obtain ⟨k1, c1⟩ := p
    intro h
    by_cases hk : k1 = k
    · simp [lookupAL, hk] at h
      subst hk
      subst h
      exact List.mem_cons_self _ _
    · simp [lookupAL, hk] at h
      exact List.mem_cons_of_mem _ (ih h)

/-- Any pair stored under some other key survives the store. -/
theorem mem_insertAL (k : String) (c : Conn) :
    ∀ l p, p ∈ insertAL k c l → p = (k, c) ∨ p ∈ l := by
  intro l
  induction l with
  | nil => intro p h; simp [insertAL] at h; exact Or.inl h
  | cons q rest ih =>
    obtain ⟨k1, c1⟩ := q
    intro p h
    by_cases hk : k1 = k
    · simp [insertAL, hk] at h
      rcases h with h | h
      · exact Or.inl h
      · exact Or.inr (List.mem_cons_of_mem _ h)
    · simp [insertAL, hk] at h
      rcases h with h | h
      · exact Or.inr (by simp [h])
      · rcases ih p h with h1 | h1
        · exact Or.inl h1
        · exact Or.inr (List.mem_cons_of_mem _ h1)

/-- Removal only ever drops pairs. -/
theorem eraseAL_subset (k : String) :
    ∀ l p, p ∈ eraseAL k l → p ∈ l := by
  intro l
  induction l with
  | nil => intro p h; simp [eraseAL] at h
  | cons q rest ih =>
    obtain ⟨k1, c1⟩ := q
    intro p h
    by_cases hk : k1 = k
    · simp [eraseAL, hk] at h
      exact List.mem_cons_of_mem _ h
    · simp [eraseAL, hk] at h
      rcases h with h | h
      · simp [h]
      · exact List.mem_cons_of_mem _ (ih p h)

/-- Pointwise reading of `allClientsB`. -/
theorem allClientsB_iff (l : List (String × Conn)) :
    allClientsB l = true ↔ ∀ p ∈ l, p.2.client.isSome = true := by
  simp [allClientsB, List.all_eq_true]

/-- Storing an entry with an assigned client preserves `allClientsB`. -/
theorem allClientsB_insertAL (k : String) (c : Conn) (l : List (String × Conn))
    (hc : c.client.isSome = true) (hl : allClientsB l = true) :
    allClientsB (insertAL k c l) = true := by
  rw [allClientsB_iff] at hl ⊢
  intro p hp
  rcases mem_insertAL k c l p hp with h | h
  · subst h; exact hc
  · exact hl p h

/-- Removing an entry preserves `allClientsB`. -/
theorem allClientsB_eraseAL (k : String) (l : List (String × Conn))
    (hl : allClientsB l = true) :
    allClientsB (eraseAL k l) = true := by
  rw [allClientsB_iff] at hl ⊢
  intro p hp
  exact hl p (eraseAL_subset k l p hp)

/-- The cache-hit path of `__new__`: present key, object returned as is. -/
theorem new_hit (mode : Mode) (key : String) (res : OpenResult) (s : RegState) (c : Conn)
    (h : lookupAL key s.entries = some c) :
    new mode key res s = .ok ⟨c, s, none, false⟩ := by
  simp [new, h]

/-- Closed form of the locked creation body for a successful open. -/
theorem lockedBody_success (mode : Mode) (key : String) (cl : Client) (s : RegState) :
    lockedBody mode key (.success cl) s =
      .ok ⟨⟨key, mode, some cl, s.nextId⟩,
           ⟨insertAL key ⟨key, mode, some cl, s.nextId⟩ s.entries, s.nextId + 1⟩,
           none, true⟩ := by
  simp [lockedBody, init_connection, insertAL_insertAL]

/-- Closed form of the locked creation body for a handled open failure: the
entry stays stored with `client` unassigned and the error kind is logged. -/
theorem lockedBody_failure (mode : Mode) (key : String) (e : ExcClass) (k : ErrKind)
    (s : RegState) (h : matchingHandler e = some k) :
    lockedBody mode key (.raises e) s =
      .ok ⟨⟨key, mode, none, s.nextId⟩,
           ⟨insertAL key ⟨key, mode, none, s.nextId⟩ s.entries, s.nextId + 1⟩,
           some k, true⟩ := by
  simp [lockedBody, init_connection, h, insertAL_insertAL]

/-- Once the key is present, any number of further `__new__` calls return the
stored object and leave the state untouched. -/
theorem newSeq_hit (mode : Mode) (key : String) (c : Conn) :
    ∀ (rs : List OpenResult) (s : RegState), lookupAL key s.entries = some c →
      newSeq mode key rs s = .ok (List.replicate rs.length c, s) := by
  intro rs
  induction rs with
  | nil => intro s _; rfl
  | cons r rs ih =>
    intro s h
    simp [newSeq, new, h, ih s h, List.replicate_succ]

/-- A sweep over entries that all close cleanly empties the dict, emits the
full sweep trace and raises nothing. -/
theorem closeAllGo_good :
    ∀ (l : List (String × Conn)) (n : Nat), l.all (fun p => goodClient p.2) = true →
      closeAllGo (l.map Prod.fst) ⟨l, n⟩ = (⟨[], n⟩, sweepTrace l, none) := by
  intro l
  induction l with
  | nil => intro n _; rfl
  | cons p rest ih =>
    obtain ⟨k, c⟩ := p
    intro n h
    rw [List.all_cons] at h
    rcases Bool.and_eq_true_iff.mp h with ⟨hc, hrest⟩
    rcases hcl : c.client with _ | cl
    · rw [goodClient, hcl] at hc; simp at hc
    · have hb : cl.closeRaises = false := by
        rw [goodClient, hcl] at hc
        simpa using hc
      simp [closeAllGo, lookupAL, close_connection, hcl, hb, insertAL, eraseAL,
        sweepTrace, ih n hrest]

/-- The sweep trace calls the underlying close exactly once per entry. -/
theorem closeCalledKeys_sweepTrace :
    ∀ l : List (String × Conn),
      closeCalledKeys (sweepTrace l) = l.map fun p => p.2.key := by
  intro l
  induction l with
  | nil => rfl
  | cons p rest ih =>
    obtain ⟨k, c⟩ := p
    simp [sweepTrace, closeCalledKeys, ih]

/-- Every stored entry gets its close call in the sweep trace. -/
theorem closeCalled_mem_sweepTrace (k : String) (c : Conn) :
    ∀ l, lookupAL k l = some c → Ev.closeCalled c.key ∈ sweepTrace l := by
  intro l
  induction l with
  | nil => intro h; simp [lookupAL] at h
  | cons p rest ih =>
    obtain ⟨k1, c1⟩ := p
    intro h
    by_cases hk : k1 = k
    · simp [lookupAL, hk] at h
      subst h
      simp [sweepTrace]
    · simp [lookupAL, hk] at h
      simp only [sweepTrace]
      exact List.mem_cons_of_mem _ (List.mem_cons_of_mem _ (ih h))

/-- The sweep of `closeAllGo` preserves the all-clients-assigned property of
the dict, whether or not it aborts early. -/
theorem closeAllGo_allClients :
    ∀ (ks : List String) (s : RegState), allClientsB s.entries = true →
      allClientsB (closeAllGo ks s).1.entries = true := by
  intro ks
  induction ks with
  | nil => intro s h; exact h
  | cons k ks ih =>
    intro s h
    cases hlk : lookupAL k s.entries with
    | none => simpa [closeAllGo, hlk] using h
    | some c =>
      have hc : c.client.isSome = true :=
        (allClientsB_iff s.entries).mp h _ (lookupAL_mem k c s.entries hlk)
      rcases hcl : c.client with _ | cl
      · rw [hcl] at hc; simp at hc
      · have hins : allClientsB (insertAL k c s.entries) = true :=
          allClientsB_insertAL k c s.entries hc h
        cases hb : cl.closeRaises
        · have := ih ⟨eraseAL k (insertAL k c s.entries), s.nextId⟩
            (allClientsB_eraseAL k _ hins)
          simpa [closeAllGo, hlk, close_connection, hcl, hb] using this
        · simpa [closeAllGo, hlk, close_connection, hcl, hb] using hins

/-! ### Claim C1 -/

/-- C1 counterexample: the claim says a failed open leaves no entry for the
key.  On the code, `__new__` from an empty registry with an open step that
raises InvalidURI leaves the broken object stored under the key: the lookup
for the key is not `none`. -/
theorem c1_counterexample :
    new Mode.thread "k1" (OpenResult.raises ExcClass.invalidURI) ⟨[], 0⟩ =
      .ok ⟨⟨"k1", Mode.thread, none, 0⟩,
           ⟨[("k1", ⟨"k1", Mode.thread, none, 0⟩)], 1⟩,
           some ErrKind.invalidURIError, true⟩ ∧
    lookupAL "k1" [("k1", (⟨"k1", Mode.thread, none, 0⟩ : Conn))] ≠ none := by
  exact ⟨rfl, by decide⟩

/-- C1 amended: on a handled open failure `__new__` retains the entry (with
`client` never assigned) rather than returning the key to ABSENT, and a
subsequent `__new__` for the same still-live context returns that same
cached broken object without re-attempting creation. -/
theorem c1_broken_entry_cached (mode mode2 : Mode) (key : String) (e : ExcClass)
    (k : ErrKind) (res2 : OpenResult) (s : RegState)
    (h1 : lookupAL key s.entries = none) (h2 : matchingHandler e = some k) :
    new mode key (.raises e) s =
      .ok ⟨⟨key, mode, none, s.nextId⟩,
           ⟨insertAL key ⟨key, mode, none, s.nextId⟩ s.entries, s.nextId + 1⟩,
           some k, true⟩ ∧
    new mode2 key res2 ⟨insertAL key ⟨key, mode, none, s.nextId⟩ s.entries, s.nextId + 1⟩ =
      .ok ⟨⟨key, mode, none, s.nextId⟩,
           ⟨insertAL key ⟨key, mode, none, s.nextId⟩ s.entries, s.nextId + 1⟩,
           none, false⟩ := by
  constructor
  · rw [new, h1]
    exact lockedBody_failure mode key e k s h2
  · exact new_hit mode2 key res2 _ _ (lookupAL_insertAL_self key _ s.entries)

/-- C1 witness: the amended statement evaluated at a concrete input. -/
theorem c1_witness :
    lookupAL "w1" ([] : List (String × Conn)) = none ∧
    matchingHandler ExcClass.invalidURI = some ErrKind.invalidURIError ∧
    new Mode.thread "w1" (OpenResult.raises ExcClass.invalidURI) ⟨[], 5⟩ =
      .ok ⟨⟨"w1", Mode.thread, none, 5⟩,
           ⟨[("w1", ⟨"w1", Mode.thread, none, 5⟩)], 6⟩,
           some ErrKind.invalidURIError, true⟩ := by
  refine ⟨by decide, by decide, ?_⟩
  have h := c1_broken_entry_cached Mode.thread Mode.thread "w1" ExcClass.invalidURI
    ErrKind.invalidURIError (OpenResult.success ⟨false⟩) ⟨[], 5⟩ (by decide) (by decide)
  simpa [insertAL] using h.1

/-! ### Claim C2 -/

/-- C2 counterexample: the claim says every stored entry has a non-null
client regardless of the open outcome.  A single `__new__` whose open step
raises ConfigurationError leaves a stored entry whose client is unassigned:
`allClientsB` is false on the resulting dict. -/
theorem c2_counterexample :
    (new Mode.thread "k2" (OpenResult.raises ExcClass.configurationError) ⟨[], 0⟩).toOption.map
      (fun out => allClientsB out.st.entries) = some false := by
  decide

/-- C2 amended: the non-null-client invariant holds only as long as every
open succeeds: it is preserved by `__new__` with a successful open, by
`close`, and by the `close_all_connections` sweep, but a `__new__` whose
open fails breaks it (see the counterexample). -/
theorem c2_invariant_preserved_when_open_succeeds
    (s : RegState) (mode : Mode) (key key2 : String) (cl : Client) (ks : List String)
    (h : allClientsB s.entries = true) :
    ((new mode key (.success cl) s).toOption.all fun out => allClientsB out.st.entries) = true ∧
    allClientsB (close key2 s).1.entries = true ∧
    allClientsB (closeAllGo ks s).1.entries = true ∧
    allClientsB (close_all_connections s).1.entries = true := by
  refine ⟨?_, ?_, closeAllGo_allClients ks s h, closeAllGo_allClients _ s h⟩
  · cases hlk : lookupAL key s.entries with
    | some c =>
      rw [new_hit mode key _ s c hlk]
      simpa [Except.toOption] using h
    | none =>
      rw [new, hlk, lockedBody_success]
      simpa [Except.toOption] using
        allClientsB_insertAL key ⟨key, mode, some cl, s.nextId⟩ s.entries rfl h
  · cases hlk : lookupAL key2 s.entries with
    | none => simpa [close, hlk] using h
    | some c =>
      have hc : c.client.isSome = true :=
        (allClientsB_iff s.entries).mp h _ (lookupAL_mem key2 c s.entries hlk)
      rcases hcl : c.client with _ | cl1
      · rw [hcl] at hc; simp at hc
      · have hins : allClientsB (insertAL key2 c s.entries) = true :=
          allClientsB_insertAL key2 c s.entries hc h
        cases hb : cl1.closeRaises
        · simpa [close, hlk, close_connection, hcl, hb] using
            allClientsB_eraseAL key2 _ hins
        · simpa [close, hlk, close_connection, hcl, hb] using hins

/-- C2 witness: the amended statement evaluated at a concrete input. -/
theorem c2_witness :
    allClientsB [("w2", (⟨"w2", Mode.thread, some ⟨false⟩, 0⟩ : Conn))] = true ∧
    allClientsB
      (close "w2" ⟨[("w2", ⟨"w2", Mode.thread, some ⟨false⟩, 0⟩)], 1⟩).1.entries = true := by
  refine ⟨by decide, ?_⟩
  exact (c2_invariant_preserved_when_open_succeeds
    ⟨[("w2", ⟨"w2", Mode.thread, some ⟨false⟩, 0⟩)], 1⟩
    Mode.thread "w2x" "w2" ⟨false⟩ ["w2"] (by decide)).2.1

/-! ### Claim C3 -/

/-- C3 counterexample: the claim says `close` removes the entry first and
closes afterwards.  On a concrete one-entry registry the emitted trace is
close first, removal second, so removal does not happen before the close. -/
theorem c3_counterexample :
    (close "k3" ⟨[("k3", ⟨"k3", Mode.thread, some ⟨false⟩, 0⟩)], 1⟩).2.1 =
      [Ev.closeCalled "k3", Ev.removed "k3"] ∧
    removedBeforeClose "k3"
      (close "k3" ⟨[("k3", ⟨"k3", Mode.thread, some ⟨false⟩, 0⟩)], 1⟩).2.1 = false := by
  decide

/-- C3 amended: for a present key whose client closes cleanly, `close` first
calls the underlying close and only afterwards removes the dict entry:
between the two, the dict still holds the entry whose close has run. -/
theorem c3_close_then_remove (s : RegState) (key : String) (c : Conn) (cl : Client)
    (h1 : lookupAL key s.entries = some c) (h2 : c.client = some cl)
    (h3 : cl.closeRaises = false) :
    close key s = (⟨eraseAL key s.entries, s.nextId⟩,
                   [Ev.closeCalled c.key, Ev.removed key], none) := by
  simp [close, h1, close_connection, h2, h3, insertAL_lookup_self key c s.entries h1]

/-- C3 witness: the amended statement evaluated at a concrete input. -/
theorem c3_witness :
    lookupAL "w3" [("w3", (⟨"w3", Mode.thread, some ⟨false⟩, 0⟩ : Conn))] =
      some ⟨"w3", Mode.thread, some ⟨false⟩, 0⟩ ∧
    close "w3" ⟨[("w3", ⟨"w3", Mode.thread, some ⟨false⟩, 0⟩)], 1⟩ =
      (⟨[], 1⟩, [Ev.closeCalled "w3", Ev.removed "w3"], none) := by
  refine ⟨by decide, ?_⟩
  have h := c3_close_then_remove ⟨[("w3", ⟨"w3", Mode.thread, some ⟨false⟩, 0⟩)], 1⟩
    "w3" ⟨"w3", Mode.thread, some ⟨false⟩, 0⟩ ⟨false⟩ (by decide) rfl rfl
  simpa [eraseAL] using h

/-! ### Claim C4 -/

/-- C4 confirmed: from a state where the context key is absent, a sequence
of `__new__` calls from that one context with a successful first open
constructs exactly one object (the identity counter advances exactly once)
and every call in the sequence, whatever its own would-be open outcome,
returns that same object: the result is the constructed object replicated,
with the state fixed after the first call. -/
theorem c4_single_construction_same_instance
    (mode : Mode) (key : String) (cl : Client) (rs : List OpenResult) (s : RegState)
    (h : lookupAL key s.entries = none) :
    newSeq mode key (OpenResult.success cl :: rs) s =
      .ok (List.replicate (rs.length + 1) ⟨key, mode, some cl, s.nextId⟩,
           ⟨insertAL key ⟨key, mode, some cl, s.nextId⟩ s.entries, s.nextId + 1⟩) := by
  have h1 : new mode key (.success cl) s =
      .ok ⟨⟨key, mode, some cl, s.nextId⟩,
           ⟨insertAL key ⟨key, mode, some cl, s.nextId⟩ s.entries, s.nextId + 1⟩,
           none, true⟩ := by
    rw [new, h]
    exact lockedBody_success mode key cl s
  have h2 := newSeq_hit mode key ⟨key, mode, some cl, s.nextId⟩ rs
    ⟨insertAL key ⟨key, mode, some cl, s.nextId⟩ s.entries, s.nextId + 1⟩
    (lookupAL_insertAL_self key _ s.entries)
  simp [newSeq, h1, h2, List.replicate_succ]

/-- C4 witness: three calls from one context, the later two with open
outcomes that would fail, all return the single constructed object. -/
theorem c4_witness :
    lookupAL "w4" ([] : List (String × Conn)) = none ∧
    newSeq Mode.thread "w4"
        [OpenResult.success ⟨false⟩, OpenResult.raises ExcClass.invalidURI,
         OpenResult.raises ExcClass.otherException] ⟨[], 0⟩ =
      .ok ([⟨"w4", Mode.thread, some ⟨false⟩, 0⟩, ⟨"w4", Mode.thread, some ⟨false⟩, 0⟩,
            ⟨"w4", Mode.thread, some ⟨false⟩, 0⟩],
           ⟨[("w4", ⟨"w4", Mode.thread, some ⟨false⟩, 0⟩)], 1⟩) := by
  refine ⟨by decide, ?_⟩
  have h := c4_single_construction_same_instance Mode.thread "w4" ⟨false⟩
    [OpenResult.raises ExcClass.invalidURI, OpenResult.raises ExcClass.otherException]
    ⟨[], 0⟩ (by decide)
  simpa [insertAL, List.replicate] using h

/-! ### Claim C5 -/

/-- C5 counterexample: the claim says `close_all_connections` always empties
the dict.  From the reachable state left by one `__new__` whose open raised
InvalidURI, the sweep hits the never-assigned `client` attribute, raises
AttributeError and leaves the entry in place. -/
theorem c5_counterexample :
    (new Mode.thread "k5" (OpenResult.raises ExcClass.invalidURI) ⟨[], 0⟩).toOption.map
      (fun out => close_all_connections out.st) =
      some (⟨[("k5", ⟨"k5", Mode.thread, none, 0⟩)], 1⟩, [], some PyErr.attributeError) ∧
    ([("k5", (⟨"k5", Mode.thread, none, 0⟩ : Conn))] : List (String × Conn)) ≠ [] := by
  decide

/-- C5 amended: provided every stored entry has its client assigned and none
of the underlying closes raises, the sweep empties the dict, raises nothing,
and the underlying close is called exactly once per snapshotted entry; an
entry with an unassigned client instead aborts the sweep (counterexample). -/
theorem c5_sweep_clears_good_entries (s : RegState)
    (h : s.entries.all (fun p => goodClient p.2) = true) :
    close_all_connections s = (⟨[], s.nextId⟩, sweepTrace s.entries, none) ∧
    closeCalledKeys (sweepTrace s.entries) = s.entries.map (fun p => p.2.key) := by
  constructor
  · rcases s with ⟨l, n⟩
    exact closeAllGo_good l n h
  · exact closeCalledKeys_sweepTrace s.entries

/-- C5 witness: the amended statement on a concrete two-entry registry. -/
theorem c5_witness :
    ([("w5a", (⟨"w5a", Mode.thread, some ⟨false⟩, 0⟩ : Conn)),
      ("w5b", (⟨"w5b", Mode.thread, some ⟨false⟩, 1⟩ : Conn))].all
        fun p => goodClient p.2) = true ∧
    close_all_connections
        ⟨[("w5a", ⟨"w5a", Mode.thread, some ⟨false⟩, 0⟩),
          ("w5b", ⟨"w5b", Mode.thread, some ⟨false⟩, 1⟩)], 2⟩ =
      (⟨[], 2⟩,
       [Ev.closeCalled "w5a", Ev.removed "w5a", Ev.closeCalled "w5b", Ev.removed "w5b"],
       none) := by
  refine ⟨by decide, ?_⟩
  have h := c5_sweep_clears_good_entries
    ⟨[("w5a", ⟨"w5a", Mode.thread, some ⟨false⟩, 0⟩),
      ("w5b", ⟨"w5b", Mode.thread, some ⟨false⟩, 1⟩)], 2⟩ (by decide)
  simpa [sweepTrace] using h.1

/-! ### Claim C6 -/

/-- C6 counterexample: the claim says teardown errors are swallowed.  On a
registry whose single entry holds a client whose underlying close raises,
`close` surfaces the error to the caller and does not remove the entry. -/
theorem c6_counterexample :
    close "k6" ⟨[("k6", ⟨"k6", Mode.thread, some ⟨true⟩, 0⟩)], 1⟩ =
      (⟨[("k6", ⟨"k6", Mode.thread, some ⟨true⟩, 0⟩)], 1⟩, [Ev.closeCalled "k6"],
       some PyErr.closeError) ∧
    (close "k6" ⟨[("k6", ⟨"k6", Mode.thread, some ⟨true⟩, 0⟩)], 1⟩).2.2 ≠ none := by
  decide

/-- C6 amended: `close` of an absent key is a raise-free no-op, but for a
present key teardown errors propagate to the caller instead of being
swallowed: an entry whose open had failed raises AttributeError from the
never-assigned client attribute, and a failing underlying close escapes. -/
theorem c6_absent_noop_errors_propagate (s : RegState) (key : String) (c : Conn)
    (cl : Client) :
    (lookupAL key s.entries = none → close key s = (s, [], none)) ∧
    (lookupAL key s.entries = some c → c.client = none →
      close key s = (s, [], some PyErr.attributeError)) ∧
    (lookupAL key s.entries = some c → c.client = some cl → cl.closeRaises = true →
      close key s = (s, [Ev.closeCalled c.key], some PyErr.closeError)) := by
  refine ⟨?_, ?_, ?_⟩
  · intro h
    simp [close, h]
  · intro h hcl
    simp [close, h, close_connection, hcl, insertAL_lookup_self key c s.entries h]
  · intro h hcl hb
    simp [close, h, close_connection, hcl, hb, insertAL_lookup_self key c s.entries h]

/-- C6 witness: the amended statement on concrete inputs, covering the
absent-key no-op and the failed-open AttributeError. -/
theorem c6_witness :
    close "w6" ⟨[], 0⟩ = (⟨[], 0⟩, [], none) ∧
    close "w6b" ⟨[("w6b", ⟨"w6b", Mode.thread, none, 0⟩)], 1⟩ =
      (⟨[("w6b", ⟨"w6b", Mode.thread, none, 0⟩)], 1⟩, [], some PyErr.attributeError) := by
  constructor
  · exact (c6_absent_noop_errors_propagate ⟨[], 0⟩ "w6"
      ⟨"w6", Mode.thread, none, 0⟩ ⟨false⟩).1 (by decide)
  · exact (c6_absent_noop_errors_propagate ⟨[("w6b", ⟨"w6b", Mode.thread, none, 0⟩)], 1⟩
      "w6b" ⟨"w6b", Mode.thread, none, 0⟩ ⟨false⟩).2.1 (by decide) rfl

/-! ### Claim C7 -/

/-- C7 confirmed: any open-step failure of the four specified sorts — a
server-selection timeout, a transport failure (any ConnectionFailure
subclass, AutoReconnect included), a malformed URI, a malformed client
configuration — is caught by exactly one except clause of
`_initialize_connection`, classified as the matching error kind, logged, and
`__new__` completes without the exception escaping. -/
theorem c7_open_failures_classified (c : Conn) (mode : Mode) (key : String)
    (s : RegState) (e : ExcClass)
    (h : isSubclass e ExcClass.connectionFailure = true ∨
         isSubclass e ExcClass.configurationError = true) :
    matchingHandler ExcClass.serverSelectionTimeoutError = some ErrKind.timeout ∧
    matchingHandler ExcClass.autoReconnect = some ErrKind.connFailure ∧
    matchingHandler ExcClass.connectionFailure = some ErrKind.connFailure ∧
    matchingHandler ExcClass.invalidURI = some ErrKind.invalidURIError ∧
    matchingHandler ExcClass.configurationError = some ErrKind.configError ∧
    (matchingHandler e).isSome = true ∧
    init_connection c (.raises e) = .ok (c, matchingHandler e) ∧
    (new mode key (.raises e) s).toOption.isSome = true := by
  have hsome : (matchingHandler e).isSome = true := by
    rcases h with h | h <;> cases e <;> revert h <;> decide
  rcases Option.isSome_iff_exists.mp hsome with ⟨k, hk⟩
  have hinit : init_connection c (.raises e) = .ok (c, matchingHandler e) := by
    simp [init_connection, hk]
  have hnew : (new mode key (.raises e) s).toOption.isSome = true := by
    cases hlk : lookupAL key s.entries with
    | some c1 => simp [new, hlk, Except.toOption]
    | none => simp [new, hlk, lockedBody, init_connection, hk, Except.toOption]
  exact ⟨by decide, by decide, by decide, by decide, by decide, hsome, hinit, hnew⟩

/-- C7 witness: the statement evaluated at a concrete InvalidURI failure. -/
theorem c7_witness :
    (isSubclass ExcClass.invalidURI ExcClass.connectionFailure = true ∨
     isSubclass ExcClass.invalidURI ExcClass.configurationError = true) ∧
    (new Mode.thread "w7" (OpenResult.raises ExcClass.invalidURI) ⟨[], 0⟩).toOption.isSome
      = true := by
  refine ⟨by decide, ?_⟩
  exact (c7_open_failures_classified ⟨"w7", Mode.thread, none, 0⟩ Mode.thread "w7"
    ⟨[], 0⟩ ExcClass.invalidURI (by decide)).2.2.2.2.2.2.2

/-! ### Claim C8 -/

/-- C8 counterexample: the claim says the locked section re-tests existence
and returns the existing entry.  Running the locked body (singleton.py lines
78-84) on a registry that already holds an entry for the key constructs a
second object (fresh identity 1) and overwrites the stored entry (identity
0): there is no re-check. -/
theorem c8_counterexample :
    lockedBody Mode.thread "k8" (OpenResult.success ⟨false⟩)
        ⟨[("k8", ⟨"k8", Mode.thread, some ⟨false⟩, 0⟩)], 1⟩ =
      .ok ⟨⟨"k8", Mode.thread, some ⟨false⟩, 1⟩,
           ⟨[("k8", ⟨"k8", Mode.thread, some ⟨false⟩, 1⟩)], 2⟩, none, true⟩ ∧
    (⟨"k8", Mode.thread, some ⟨false⟩, 1⟩ : Conn) ≠ ⟨"k8", Mode.thread, some ⟨false⟩, 0⟩ := by
  exact ⟨rfl, by decide⟩

/-- C8 amended: existence is tested only before the lock is taken; the body
under the lock unconditionally constructs a fresh object and stores it, so a
caller that queued on the lock after observing the key absent replaces a
racing caller's entry with a second, distinct object instead of returning
the existing one. -/
theorem c8_no_recheck_overwrites (mode : Mode) (key : String) (cl : Client)
    (s : RegState) (c : Conn)
    (h1 : lookupAL key s.entries = some c) (h2 : c.connId ≠ s.nextId) :
    lockedBody mode key (.success cl) s =
      .ok ⟨⟨key, mode, some cl, s.nextId⟩,
           ⟨insertAL key ⟨key, mode, some cl, s.nextId⟩ s.entries, s.nextId + 1⟩,
           none, true⟩ ∧
    (⟨key, mode, some cl, s.nextId⟩ : Conn) ≠ c ∧
    lookupAL key (insertAL key ⟨key, mode, some cl, s.nextId⟩ s.entries) =
      some ⟨key, mode, some cl, s.nextId⟩ := by
  refine ⟨lockedBody_success mode key cl s, ?_, lookupAL_insertAL_self key _ s.entries⟩
  intro hc
  exact h2 (by rw [← hc])

/-- C8 witness: the amended statement evaluated at a concrete input. -/
theorem c8_witness :
    lookupAL "w8" [("w8", (⟨"w8", Mode.thread, some ⟨false⟩, 0⟩ : Conn))] =
      some ⟨"w8", Mode.thread, some ⟨false⟩, 0⟩ ∧
    (0 : Nat) ≠ 1 ∧
    (⟨"w8", Mode.thread, some ⟨true⟩, 1⟩ : Conn) ≠ ⟨"w8", Mode.thread, some ⟨false⟩, 0⟩ := by
  refine ⟨by decide, by decide, ?_⟩
  exact (c8_no_recheck_overwrites Mode.thread "w8" ⟨true⟩
    ⟨[("w8", ⟨"w8", Mode.thread, some ⟨false⟩, 0⟩)], 1⟩
    ⟨"w8", Mode.thread, some ⟨false⟩, 0⟩ (by decide) (by decide)).2.1

/-! ### Claim C9 -/

/-- C9 counterexample: the claim says the two variants are independent and
teardown through one leaves the other's entries unchanged.  After a
thread-mode `__new__` stores an entry, the async variant's inherited
`close_all_connections` (operating on the shared `_instances`) leaves zero
entries: the thread-mode entry is gone. -/
theorem c9_counterexample :
    ((MongoDBSingleton.new "t9" (OpenResult.success ⟨false⟩) ⟨[], 0⟩).toOption.map fun o1 =>
      (MongoDBSingletonAsync.new "a9" (OpenResult.success ⟨false⟩) o1.st).toOption.map fun o2 =>
        lookupAL "t9" o2.st.entries) =
      some (some (some ⟨"t9", Mode.thread, some ⟨false⟩, 0⟩)) ∧
    ((MongoDBSingleton.new "t9" (OpenResult.success ⟨false⟩) ⟨[], 0⟩).toOption.map fun o1 =>
      (MongoDBSingletonAsync.new "a9" (OpenResult.success ⟨false⟩) o1.st).toOption.map fun o2 =>
        (MongoDBSingletonAsync.close_all_connections o2.st).1.entries) =
      some (some []) := by
  decide

/-- C9 amended: the async subclass never rebinds `_instances` or `_lock`, so
both variants act on one shared registry: whenever the shared state holds a
thread-mode entry, `MongoDBSingletonAsync.close_all_connections` closes it
and removes it along with everything else. -/
theorem c9_shared_registry_teardown (s : RegState) (k : String) (c : Conn)
    (h1 : s.entries.all (fun p => goodClient p.2) = true)
    (h2 : lookupAL k s.entries = some c) (h3 : c.mode = Mode.thread) :
    MongoDBSingletonAsync.close_all_connections s =
      (⟨[], s.nextId⟩, sweepTrace s.entries, none) ∧
    Ev.closeCalled c.key ∈ sweepTrace s.entries := by
  constructor
  · show close_all_connections s = _
    rcases s with ⟨l, n⟩
    exact closeAllGo_good l n h1
  · exact closeCalled_mem_sweepTrace k c s.entries h2

/-- C9 witness: the amended statement on a concrete mixed registry. -/
theorem c9_witness :
    ([("w9t", (⟨"w9t", Mode.thread, some ⟨false⟩, 0⟩ : Conn)),
      ("w9a", (⟨"w9a", Mode.task, some ⟨false⟩, 1⟩ : Conn))].all
        fun p => goodClient p.2) = true ∧
    lookupAL "w9t"
      [("w9t", (⟨"w9t", Mode.thread, some ⟨false⟩, 0⟩ : Conn)),
       ("w9a", (⟨"w9a", Mode.task, some ⟨false⟩, 1⟩ : Conn))] =
      some ⟨"w9t", Mode.thread, some ⟨false⟩, 0⟩ ∧
    MongoDBSingletonAsync.close_all_connections
        ⟨[("w9t", ⟨"w9t", Mode.thread, some ⟨false⟩, 0⟩),
          ("w9a", ⟨"w9a", Mode.task, some ⟨false⟩, 1⟩)], 2⟩ =
      (⟨[], 2⟩,
       [Ev.closeCalled "w9t", Ev.removed "w9t", Ev.closeCalled "w9a", Ev.removed "w9a"],
       none) := by
  refine ⟨by decide, by decide, ?_⟩
  have h := c9_shared_registry_teardown
    ⟨[("w9t", ⟨"w9t", Mode.thread, some ⟨false⟩, 0⟩),
      ("w9a", ⟨"w9a", Mode.task, some ⟨false⟩, 1⟩)], 2⟩
    "w9t" ⟨"w9t", Mode.thread, some ⟨false⟩, 0⟩ (by decide) (by decide) rfl
  simpa [sweepTrace] using h.1

/-! ### Claim C10 -/

/-- C10 confirmed: for an object with an assigned client,
`close_connection` leaves every attribute (key, type, client) unchanged —
the client is never cleared — and calling it a second time on the result
invokes the underlying close again rather than being a no-op. -/
theorem c10_close_preserves_fields (c : Conn) (cl : Client) (h : c.client = some cl) :
    (close_connection c).1 = c ∧
    (close_connection c).2.1 = [Ev.closeCalled c.key] ∧
    (close_connection (close_connection c).1).2.1 = [Ev.closeCalled c.key] := by
  cases hb : cl.closeRaises <;> simp [close_connection, h, hb]

/-- C10 witness: the statement evaluated at a concrete connection. -/
theorem c10_witness :
    (⟨"w10", Mode.thread, some ⟨false⟩, 0⟩ : Conn).client = some ⟨false⟩ ∧
    (close_connection ⟨"w10", Mode.thread, some ⟨false⟩, 0⟩).1 =
      ⟨"w10", Mode.thread, some ⟨false⟩, 0⟩ ∧
    (close_connection
        (close_connection ⟨"w10", Mode.thread, some ⟨false⟩, 0⟩).1).2.1 =
      [Ev.closeCalled "w10"] := by
  have h := c10_close_preserves_fields ⟨"w10", Mode.thread, some ⟨false⟩, 0⟩ ⟨false⟩ rfl
  exact ⟨rfl, h.1, h.2.2⟩

end MdbSingleton
